import Mathlib

/-!
Verification of the rfmix probability codec (src/rfmix.h) and of the
command-line option initialization/validation logic (src/rfmix.cpp).

The codec functions `DF8`, `ef8`, `DF16`, `ef16` operate on C doubles via
`log`/`exp`; they are embedded over the real numbers, with the C cast
`(int)x` (truncation toward zero) embedded as `trunc`.

The option logic (`init_options`, `verify_options`, `main`) is embedded as
pure functions over a record mirroring `rfmix_opts_t`.  External inputs of
the program (the wall clock read by `time(NULL)`, the processor count read
by `sysconf`, and the `N_RF_BOOTSTRAP` constant declared in the
random-forest header that is not part of src/) are passed as parameters.
-/

namespace Rfmix

/-! ### The C cast to int: truncation toward zero -/

/-- The C conversion `(int)x` of a double to an integer: truncation toward
zero (floor for nonnegative values, ceiling for negative values). -/
noncomputable def trunc (x : ℝ) : ℤ :=
  if 0 ≤ x then ⌊x⌋ else ⌈x⌉

/-! ### The probability codec of src/rfmix.h

`DF8(x) = 1.0/(1.0+exp(((double)(x)) / -12.0))` decodes an 8-bit code;
`ef8` computes `(int)(-12.0*log((1.0-p)/p))` and clamps the result into
[-127, 127].  `DF16`/`ef16` are identical with scale 1024 and clamp
±32767. -/

/-- Decoder macro `DF8(x) ( 1.0/(1.0+exp(((double) (x)) / -12.0)) )`. -/
noncomputable def DF8 (x : ℤ) : ℝ :=
  1 / (1 + Real.exp ((x : ℝ) / (-12)))

/-- Encoder `ef8`: `tmp = (int)(-12.0*log((1.0-p)/p))`, then
`if (tmp < -127) tmp = -127; if (tmp > 127) tmp = 127;`. -/
noncomputable def ef8 (p : ℝ) : ℤ :=
  let tmp : ℤ := trunc (-12 * Real.log ((1 - p) / p))
  let tmp1 : ℤ := if tmp < -127 then -127 else tmp
  if tmp1 > 127 then 127 else tmp1

/-- Decoder macro `DF16(x) ( 1.0/( 1.0 + exp((double) (x) / -1024.0) ))`. -/
noncomputable def DF16 (x : ℤ) : ℝ :=
  1 / (1 + Real.exp ((x : ℝ) / (-1024)))

/-- Encoder `ef16`: `tmp = (int)(-1024.0 * log((1.0 - p)/p))`, then
`if (tmp < -32767) tmp = -32767; if (tmp > 32767) tmp = 32767;`. -/
noncomputable def ef16 (p : ℝ) : ℤ :=
  let tmp : ℤ := trunc (-1024 * Real.log ((1 - p) / p))
  let tmp1 : ℤ := if tmp < -32767 then -32767 else tmp
  if tmp1 > 32767 then 32767 else tmp1

/-- The logistic function; `DF8 x = lgstc (x/12)` and
`DF16 x = lgstc (x/1024)`. -/
noncomputable def lgstc (x : ℝ) : ℝ :=
  1 / (1 + Real.exp (-x))

/-! ### The option record of src/rfmix.h and option logic of src/rfmix.cpp

`rfmix_opts_t` mirrors the struct in rfmix.h.  The fields `em_iterations`,
`bootstrap_mode`, `minimum_snps`, `analyze_str` and `analyze_range` are
referenced by rfmix.cpp (option table, `init_options`, `verify_options`)
but are missing from the struct declaration in the header of this
snapshot; they are included here with the types implied by their option
table entries (`OPT_INT` / `OPT_STR`) and uses.  C `int` fields are
embedded as `ℤ`, C `double` fields as `ℚ` (every value they take in this
logic is a small decimal constant, and only order comparisons are made),
C strings as `String`. -/

/-- The C conversion `(int)q` of an exactly-represented double to an
integer: truncation toward zero. -/
def qtrunc (q : ℚ) : ℤ :=
  if 0 ≤ q then ⌊q⌋ else ⌈q⌉

/-- Value of a string of decimal digits. -/
def natOfDigits (l : List Char) : ℕ :=
  l.foldl (fun a c => 10 * a + (c.toNat - 48)) 0

/-- Value of one hexadecimal digit. -/
def hexVal (c : Char) : ℕ :=
  if c.isDigit then c.toNat - 48
  else if 'a' ≤ c ∧ c ≤ 'f' then c.toNat - 87
  else c.toNat - 55

/-- Whether a character is a hexadecimal digit. -/
def isHexDigit (c : Char) : Bool :=
  c.isDigit || ('a' ≤ c && c ≤ 'f') || ('A' ≤ c && c ≤ 'F')

/-- Value of a string of hexadecimal digits. -/
def hexOfDigits (l : List Char) : ℕ :=
  l.foldl (fun a c => 16 * a + hexVal c) 0

/-- Decimal part of the C library number parse: an optional integer part
followed by an optional '.' and fraction digits; parsing stops at the
first character that fits neither. -/
def parseDec (l : List Char) : ℚ :=
  let ip := l.takeWhile Char.isDigit
  let rest := l.drop ip.length
  match rest with
  | '.' :: t =>
      let fp := t.takeWhile Char.isDigit
      (natOfDigits ip : ℚ) + (natOfDigits fp : ℚ) / 10 ^ fp.length
  | _ => (natOfDigits ip : ℚ)

/-- Unsigned part of the C library number parse: a `0x`/`0X` prefix makes
the digits hexadecimal, otherwise they are read as a decimal number. -/
def parseUnsigned (l : List Char) : ℚ :=
  match l with
  | '0' :: 'x' :: t => (hexOfDigits (t.takeWhile isHexDigit) : ℚ)
  | '0' :: 'X' :: t => (hexOfDigits (t.takeWhile isHexDigit) : ℚ)
  | _ => parseDec l

/-- Model of the C library `strtod` as used by `verify_options` on the
seed string: an optional sign followed by a `0x`-prefixed hexadecimal
integer or a decimal number; unparseable strings give 0.  (Locale forms,
leading whitespace, exponents and `inf`/`nan` are never produced by the
intended inputs and are not modelled.) -/
def strtodQ (s : String) : ℚ :=
  match s.toList with
  | '-' :: t => -(parseUnsigned t)
  | '+' :: t => parseUnsigned t
  | t => parseUnsigned t

/-- Model of the C library `atof`, which is `strtod(s, NULL)`. -/
def atofQ (s : String) : ℚ :=
  strtodQ s

/-- `INT_MIN` of a 32-bit C `int`. -/
def INT_MIN : ℤ := -2147483648

/-- `INT_MAX` of a 32-bit C `int`. -/
def INT_MAX : ℤ := 2147483647

/-- The option struct `rfmix_opts_t` (rfmix.h) together with the fields
rfmix.cpp uses that the header of this snapshot omits. -/
structure rfmix_opts_t where
  qvcf_fname : String
  rvcf_fname : String
  genetic_fname : String
  class_fname : String
  output_basename : String
  maximum_missing_data_freq : ℚ
  n_generations : ℤ
  rf_window_size : ℤ
  crf_spacing : ℤ
  generations : ℤ
  n_trees : ℤ
  reanalyze_reference : ℤ
  n_threads : ℤ
  chromosome : String
  random_seed_str : String
  random_seed : ℤ
  em_iterations : ℤ
  bootstrap_mode : ℤ
  minimum_snps : ℤ
  analyze_str : String
  analyze_range0 : ℤ
  analyze_range1 : ℤ

/-- `init_options` (rfmix.cpp).  `n_threads` is set from
`sysconf(_SC_NPROCESSORS_CONF)`, passed here as `nprocs`.  The assignments
`rf_window_size = 0.2` and `crf_spacing = 0.1` store a double constant
into an `int` field, which C truncates toward zero (`qtrunc`).  The fields
`generations`, `reanalyze_reference` and `random_seed` are not assigned by
`init_options`; the global `rfmix_opts` has static storage, so they hold 0
when `main` starts.  (`mkRat 1 20` is the constant 0.05, and
`mkRat 2 10` / `mkRat 1 10` are 0.2 / 0.1; `mkRat` is used rather than the
decimal literals because it is the kernel-reducible construction of ℚ.) -/
def init_options (nprocs : ℤ) : rfmix_opts_t where
  qvcf_fname := ""
  rvcf_fname := ""
  genetic_fname := ""
  class_fname := ""
  output_basename := ""
  maximum_missing_data_freq := mkRat 1 20
  n_generations := 8
  rf_window_size := qtrunc (mkRat 2 10)
  crf_spacing := qtrunc (mkRat 1 10)
  generations := 0
  n_trees := 100
  reanalyze_reference := 0
  n_threads := nprocs
  chromosome := ""
  random_seed_str := "0xDEADBEEF"
  random_seed := 0
  em_iterations := 0
  bootstrap_mode := 1
  minimum_snps := 10
  analyze_str := ""
  analyze_range0 := INT_MIN
  analyze_range1 := INT_MAX

/-- One value per diagnostic that `verify_options` can print to stderr
before setting its `stop` flag. -/
inductive diag where
  | qvcf
  | rvcf
  | genetic
  | class_map
  | output
  | max_missing
  | rf_window
  | crf_spacing
  | n_generations
  | n_trees
  | bootstrap
  | analyze_fmt
  | chromosome
deriving DecidableEq

/-- The diagnostics printed by one run of `verify_options`, in program
order.  Each `if` mirrors one check in rfmix.cpp; each check that fires
prints its message and sets `stop = 1`, independent of the others.
`N_RF_BOOTSTRAP` is declared in random-forest.h, outside src/, and is
taken as the parameter `nRfBootstrap`.  A malformed `--analyze-range`
is one with no `-` character: `strsep` then leaves `end == NULL`
(`start`, the token before the first `-`, is never NULL). -/
def verify_diags (nRfBootstrap : ℤ) (o : rfmix_opts_t) : List diag :=
  (if o.qvcf_fname = "" then [diag.qvcf] else [])
    ++ (if o.rvcf_fname = "" then [diag.rvcf] else [])
    ++ (if o.genetic_fname = "" then [diag.genetic] else [])
    ++ (if o.class_fname = "" then [diag.class_map] else [])
    ++ (if o.output_basename = "" then [diag.output] else [])
    ++ (if o.maximum_missing_data_freq < 0 ∨ 1 < o.maximum_missing_data_freq then
          [diag.max_missing] else [])
    ++ (if o.rf_window_size ≤ 0 then [diag.rf_window] else [])
    ++ (if o.crf_spacing ≤ 0 then [diag.crf_spacing] else [])
    ++ (if o.n_generations < 0 then [diag.n_generations] else [])
    ++ (if o.n_trees < 10 then [diag.n_trees] else [])
    ++ (if o.bootstrap_mode < 0 ∨ nRfBootstrap ≤ o.bootstrap_mode then
          [diag.bootstrap] else [])
    ++ (if o.analyze_str ≠ "" ∧ '-' ∉ o.analyze_str.toList then
          [diag.analyze_fmt] else [])
    ++ (if o.chromosome = "" then [diag.chromosome] else [])

/-- The mutations `verify_options` performs on the option struct: parsing
a well-formed `--analyze-range` into `analyze_range[0..1]` (each bound is
`atof(part)*1e6` converted to `int`), silently raising `n_threads` to at
least 1, and deriving `random_seed` from `random_seed_str` — `time(NULL)`
(parameter `now`) for the exact string "clock", otherwise
`strtod(random_seed_str, 0)` converted to `int`.  These assignments touch
fields no diagnostic check reads, so they are collected here; rfmix.cpp
interleaves them with the checks of `verify_diags`. -/
def verify_opts_update (now : ℤ) (o : rfmix_opts_t) : rfmix_opts_t :=
  let o1 :=
    if o.analyze_str ≠ "" ∧ '-' ∈ o.analyze_str.toList then
      let l := o.analyze_str.toList
      let start := l.takeWhile (fun c => c ≠ '-')
      let rest := (l.dropWhile (fun c => c ≠ '-')).drop 1
      { o with
        analyze_range0 := qtrunc (atofQ (String.mk start) * 1000000)
        analyze_range1 := qtrunc (atofQ (String.mk rest) * 1000000) }
    else o
  let o2 := if o1.n_threads < 1 then { o1 with n_threads := 1 } else o1
  { o2 with
    random_seed :=
      if o.random_seed_str = "clock" then now
      else qtrunc (strtodQ o.random_seed_str) }

/-- Result of `verify_options`: the diagnostics printed, the mutated
option struct, and whether `exit(-1)` was reached (`stop != 0`, which
holds exactly when some diagnostic fired). -/
structure verify_result where
  diags : List diag
  opts : rfmix_opts_t
  exited : Bool

/-- `verify_options` (rfmix.cpp). -/
def verify_options (nRfBootstrap now : ℤ) (o : rfmix_opts_t) : verify_result where
  diags := verify_diags nRfBootstrap o
  opts := verify_opts_update now o
  exited := !(verify_diags nRfBootstrap o).isEmpty

/-- The disjunction of every fatal configuration condition checked by
`verify_options`. -/
def config_error (nRfBootstrap : ℤ) (o : rfmix_opts_t) : Prop :=
  o.qvcf_fname = "" ∨ o.rvcf_fname = "" ∨ o.genetic_fname = "" ∨
  o.class_fname = "" ∨ o.output_basename = "" ∨
  o.maximum_missing_data_freq < 0 ∨ 1 < o.maximum_missing_data_freq ∨
  o.rf_window_size ≤ 0 ∨ o.crf_spacing ≤ 0 ∨ o.n_generations < 0 ∨
  o.n_trees < 10 ∨ o.bootstrap_mode < 0 ∨ nRfBootstrap ≤ o.bootstrap_mode ∨
  (o.analyze_str ≠ "" ∧ '-' ∉ o.analyze_str.toList) ∨ o.chromosome = ""

instance (n : ℤ) (o : rfmix_opts_t) : Decidable (config_error n o) := by
  unfold config_error
  infer_instance

/-- What `main` does after command-line parsing: `exited c` means the
process called `exit(c)` inside `verify_options`, before `load_input`,
`random_forest`, `crf` or any output routine ran; `ran_pipeline` means
control fell through to `load_input()` and the inference pipeline. -/
inductive main_outcome where
  | exited (code : ℤ)
  | ran_pipeline
deriving DecidableEq

/-- `main` (rfmix.cpp), after `init_options`/`cmdline_getoptions` have
produced the option struct `o`: `verify_options` runs first and calls
`exit(-1)` if any check failed; only otherwise does `load_input` run. -/
def main_model (nRfBootstrap now : ℤ) (o : rfmix_opts_t) : main_outcome :=
  if (verify_options nRfBootstrap now o).exited then main_outcome.exited (-1)
  else main_outcome.ran_pipeline

/-- Modelled from the spec: `N_RF_BOOTSTRAP` is declared in
random-forest.h, which is not under src/.  The spec describes the
bootstrap modes as "a small fixed set of strategies" (naming three
examples) forming "a closed enumeration validated at startup", so the
enumeration size is some fixed integer ≥ 2; theorems take it as a
parameter, and this concrete value stands in where one admissible size is
needed. -/
def N_RF_BOOTSTRAP_model : ℤ := 4

/-- The `init_options` defaults with the six required strings (five file
names and the chromosome) supplied: the configuration the spec's "defaults
are reasonable" comment describes. -/
def opts_defaults_with_files : rfmix_opts_t :=
  { init_options 4 with
    qvcf_fname := "query.vcf"
    rvcf_fname := "reference.vcf"
    genetic_fname := "genetic.map"
    class_fname := "samples.map"
    output_basename := "out"
    chromosome := "1" }

/-- A configuration that passes every `verify_options` check (used to
exercise the accepting path at a concrete input). -/
def opts_valid_example : rfmix_opts_t :=
  { opts_defaults_with_files with
    rf_window_size := 1
    crf_spacing := 5 }

/-! ### Lemmas about `trunc` -/

theorem trunc_sub_abs_le (x : ℝ) : |(trunc x : ℝ) - x| ≤ 1 := by
  unfold trunc
  split_ifs with h
  · rw [abs_le]
    constructor
    · linarith [Int.sub_one_lt_floor x]
    · linarith [Int.floor_le x]
  · rw [abs_le]
    constructor
    · linarith [Int.le_ceil x]
    · linarith [Int.ceil_lt_add_one x]

theorem trunc_mono {x y : ℝ} (h : x ≤ y) : trunc x ≤ trunc y := by
  unfold trunc
  split_ifs with hx hy hy'
  · exact Int.floor_le_floor h
  · exact absurd (le_trans hx h) hy
  · calc ⌈x⌉ ≤ 0 := Int.ceil_le.mpr (by exact_mod_cast le_of_not_le hx)
      _ ≤ ⌊y⌋ := Int.floor_nonneg.mpr hy'
  · exact Int.ceil_le_ceil h

theorem trunc_neg (x : ℝ) : trunc (-x) = -trunc x := by
  unfold trunc
  rcases lt_trichotomy x 0 with h | h | h
  · rw [if_pos (by linarith), if_neg (not_le.mpr h), Int.floor_neg]
  · simp [h]
  · rw [if_neg (by simpa using h), if_pos h.le, Int.ceil_neg]

theorem trunc_eq_zero {x : ℝ} (h0 : 0 ≤ x) (h1 : x < 1) : trunc x = 0 := by
  unfold trunc
  rw [if_pos h0]
  exact Int.floor_eq_zero_iff.mpr ⟨h0, h1⟩

theorem trunc_mem_Icc {c : ℤ} {x : ℝ} (hc : 0 ≤ c)
    (hl : -(c : ℝ) ≤ x) (hr : x ≤ c) : -c ≤ trunc x ∧ trunc x ≤ c := by
  unfold trunc
  split_ifs with h
  · constructor
    · calc -c ≤ 0 := by omega
        _ ≤ ⌊x⌋ := Int.floor_nonneg.mpr h
    · exact_mod_cast Int.floor_le_floor hr |>.trans_eq (Int.floor_intCast c)
  · constructor
    · calc -c = ⌈(-(c : ℝ) : ℝ)⌉ := by rw [← Int.cast_neg, Int.ceil_intCast]
        _ ≤ ⌈x⌉ := Int.ceil_le_ceil hl
    · calc ⌈x⌉ ≤ 0 := Int.ceil_le.mpr (by exact_mod_cast le_of_not_le h)
        _ ≤ c := hc

/-! ### Lemmas about the logistic function -/

theorem lgstc_pos (x : ℝ) : 0 < lgstc x := by
  unfold lgstc
  positivity

theorem lgstc_lt_one (x : ℝ) : lgstc x < 1 := by
  unfold lgstc
  rw [div_lt_one (by positivity)]
  linarith [Real.exp_pos (-x)]

theorem lgstc_eq (x : ℝ) : lgstc x = Real.exp x / (Real.exp x + 1) := by
  unfold lgstc
  rw [Real.exp_neg]
  have h := Real.exp_pos x
  field_simp

theorem lgstc_mono {x y : ℝ} (h : x ≤ y) : lgstc x ≤ lgstc y := by
  unfold lgstc
  have hle : 1 + Real.exp (-y) ≤ 1 + Real.exp (-x) :=
    add_le_add_left (Real.exp_le_exp.mpr (neg_le_neg h)) 1
  exact one_div_le_one_div_of_le (by positivity) hle

theorem lgstc_log_odds {p : ℝ} (h0 : 0 < p) (h1 : p < 1) :
    lgstc (Real.log (p / (1 - p))) = p := by
  have h2 : 0 < 1 - p := by linarith
  unfold lgstc
  rw [← Real.log_inv, Real.exp_log (by positivity)]
  rw [inv_div]
  field_simp

theorem lgstc_gap {a b δ : ℝ} (hab : b ≤ a) (hd : a - b ≤ δ) :
    lgstc a - lgstc b ≤ (Real.exp (δ / 2) - Real.exp (-(δ / 2))) / 4 := by
  have hh0 : 0 ≤ (a - b) / 2 := by linarith
  have hhd : (a - b) / 2 ≤ δ / 2 := by linarith
  have hM0 : 0 < Real.exp ((a + b) / 2) := Real.exp_pos _
  have hE0 : 0 < Real.exp ((a - b) / 2) := Real.exp_pos _
  have hF0 : 0 < Real.exp (-((a - b) / 2)) := Real.exp_pos _
  have hEF : Real.exp ((a - b) / 2) * Real.exp (-((a - b) / 2)) = 1 := by
    rw [← Real.exp_add]
    simp
  have hFE : Real.exp (-((a - b) / 2)) ≤ Real.exp ((a - b) / 2) :=
    Real.exp_le_exp.mpr (by linarith)
  have hA : Real.exp a = Real.exp ((a + b) / 2) * Real.exp ((a - b) / 2) := by
    rw [← Real.exp_add]
    ring_nf
  have hB : Real.exp b = Real.exp ((a + b) / 2) * Real.exp (-((a - b) / 2)) := by
    rw [← Real.exp_add]
    ring_nf
  have hsum : 2 ≤ Real.exp ((a - b) / 2) + Real.exp (-((a - b) / 2)) := by
    nlinarith [sq_nonneg (Real.exp ((a - b) / 2) - 1)]
  have hDenom : 4 * Real.exp ((a + b) / 2) ≤
      (Real.exp a + 1) * (Real.exp b + 1) := by
    rw [hA, hB]
    nlinarith [sq_nonneg (1 - Real.exp ((a + b) / 2))]
  have hDpos : 0 < (Real.exp a + 1) * (Real.exp b + 1) := by positivity
  have key : lgstc a - lgstc b =
      Real.exp ((a + b) / 2) *
        (Real.exp ((a - b) / 2) - Real.exp (-((a - b) / 2))) /
        ((Real.exp a + 1) * (Real.exp b + 1)) := by
    rw [lgstc_eq, lgstc_eq]
    rw [div_sub_div _ _ (by positivity) (by positivity)]
    congr 1
    rw [hA, hB]
    ring
  rw [key]
  have step1 : Real.exp ((a + b) / 2) *
        (Real.exp ((a - b) / 2) - Real.exp (-((a - b) / 2))) /
        ((Real.exp a + 1) * (Real.exp b + 1)) ≤
      (Real.exp ((a - b) / 2) - Real.exp (-((a - b) / 2))) / 4 := by
    rw [div_le_div_iff₀ hDpos (by norm_num)]
    nlinarith [mul_nonneg (sub_nonneg.mpr hFE)
      (sub_nonneg.mpr hDenom)]
  refine le_trans step1 ?_
  have h1 : Real.exp ((a - b) / 2) ≤ Real.exp (δ / 2) := Real.exp_le_exp.mpr hhd
  have h2 : Real.exp (-(δ / 2)) ≤ Real.exp (-((a - b) / 2)) :=
    Real.exp_le_exp.mpr (by linarith)
  linarith

theorem lgstc_gap_abs {a b δ : ℝ} (hd : |a - b| ≤ δ) :
    |lgstc a - lgstc b| ≤ (Real.exp (δ / 2) - Real.exp (-(δ / 2))) / 4 := by
  rcases le_total b a with h | h
  · rw [abs_of_nonneg (sub_nonneg.mpr (lgstc_mono h))]
    refine lgstc_gap h ?_
    rwa [abs_of_nonneg (sub_nonneg.mpr h)] at hd
  · rw [abs_of_nonpos (sub_nonpos.mpr (lgstc_mono h)), neg_sub]
    refine lgstc_gap h ?_
    rw [abs_of_nonpos (sub_nonpos.mpr h)] at hd
    linarith

theorem DF8_lgstc (x : ℤ) : DF8 x = lgstc ((x : ℝ) / 12) := by
  unfold DF8 lgstc
  have h : ((x : ℝ)) / (-12) = -((x : ℝ) / 12) := by ring
  rw [h]

theorem DF16_lgstc (x : ℤ) : DF16 x = lgstc ((x : ℝ) / 1024) := by
  unfold DF16 lgstc
  have h : ((x : ℝ)) / (-1024) = -((x : ℝ) / 1024) := by ring
  rw [h]

/-! ### Rational bounds on the exponential function at the points the
codec analysis needs -/

theorem exp_twelfth_le : Real.exp (1 / 12) ≤ 14020465399 / 12899450880 := by
  have h := @Real.exp_bound' (1 / 12) (by norm_num) (by norm_num) 6 (by norm_num)
  refine le_trans h ?_
  simp only [Finset.sum_range_succ, Finset.sum_range_zero, Nat.factorial]
  norm_num

theorem exp_twentyfourth_le : Real.exp (1 / 24) ≤ 64855 / 62208 := by
  have h := @Real.exp_bound' (1 / 24) (by norm_num) (by norm_num) 3 (by norm_num)
  refine le_trans h ?_
  simp only [Finset.sum_range_succ, Finset.sum_range_zero, Nat.factorial]
  norm_num

theorem exp_1024th_le : Real.exp (1 / 1024) ≤ 4198403 / 4194304 := by
  have h := @Real.exp_bound' (1 / 1024) (by norm_num) (by norm_num) 2 (by norm_num)
  refine le_trans h ?_
  simp only [Finset.sum_range_succ, Finset.sum_range_zero, Nat.factorial]
  norm_num

theorem exp_2048th_le : Real.exp (1 / 2048) ≤ 16785411 / 16777216 := by
  have h := @Real.exp_bound' (1 / 2048) (by norm_num) (by norm_num) 2 (by norm_num)
  refine le_trans h ?_
  simp only [Finset.sum_range_succ, Finset.sum_range_zero, Nat.factorial]
  norm_num

theorem pow48_le_exp : ((49 : ℝ) / 48) ^ (508 : ℕ) ≤ Real.exp (127 / 12) := by
  have h1 : ((49 : ℝ) / 48) ≤ Real.exp (1 / 48) := by
    have := Real.add_one_le_exp (1 / 48)
    linarith
  calc ((49 : ℝ) / 48) ^ (508 : ℕ)
      ≤ Real.exp (1 / 48) ^ (508 : ℕ) := pow_le_pow_left₀ (by norm_num) h1 508
    _ = Real.exp ((508 : ℕ) * (1 / 48)) := (Real.exp_nat_mul _ 508).symm
    _ = Real.exp (127 / 12) := by norm_num

theorem pow1024_le_exp :
    ((1025 : ℝ) / 1024) ^ (32767 : ℕ) ≤ Real.exp (32767 / 1024) := by
  have h1 : ((1025 : ℝ) / 1024) ≤ Real.exp (1 / 1024) := by
    have := Real.add_one_le_exp (1 / 1024)
    linarith
  calc ((1025 : ℝ) / 1024) ^ (32767 : ℕ)
      ≤ Real.exp (1 / 1024) ^ (32767 : ℕ) := pow_le_pow_left₀ (by norm_num) h1 32767
    _ = Real.exp ((32767 : ℕ) * (1 / 1024)) := (Real.exp_nat_mul _ 32767).symm
    _ = Real.exp (32767 / 1024) := by norm_num

theorem exp_127_12_le : Real.exp (127 / 12) ≤ 999974666 / 25334 := by
  calc Real.exp (127 / 12) = Real.exp ((127 : ℕ) * (1 / 12)) := by norm_num
    _ = Real.exp (1 / 12) ^ (127 : ℕ) := Real.exp_nat_mul _ 127
    _ ≤ ((14020465399 : ℝ) / 12899450880) ^ (127 : ℕ) :=
        pow_le_pow_left₀ (Real.exp_pos _).le exp_twelfth_le 127
    _ ≤ 999974666 / 25334 := by norm_num

theorem exp_32767_1024_le : Real.exp (32767 / 1024) ≤ 83333333333332 := by
  calc Real.exp (32767 / 1024) = Real.exp ((32767 : ℕ) * (1 / 1024)) := by norm_num
    _ = Real.exp (1 / 1024) ^ (32767 : ℕ) := Real.exp_nat_mul _ 32767
    _ ≤ ((4198403 : ℝ) / 4194304) ^ (32767 : ℕ) :=
        pow_le_pow_left₀ (Real.exp_pos _).le exp_1024th_le 32767
    _ ≤ 83333333333332 := by norm_num

theorem exp_127_12_ge : (99997 : ℝ) / 3 ≤ Real.exp (127 / 12) := by
  refine le_trans ?_ pow48_le_exp
  norm_num

theorem exp_32767_1024_ge : (76923076923076 : ℝ) ≤ Real.exp (32767 / 1024) := by
  refine le_trans ?_ pow1024_le_exp
  norm_num

/-! ### The encoders in the unclamped regime -/

theorem enc_arg_eq (p s : ℝ) :
    -s * Real.log ((1 - p) / p) = s * Real.log (p / (1 - p)) := by
  rw [show (1 - p) / p = (p / (1 - p))⁻¹ by rw [inv_div], Real.log_inv]
  ring

theorem odds_mono {p q : ℝ} (h0 : 0 < p) (hq1 : q < 1) (hpq : p ≤ q) :
    p / (1 - p) ≤ q / (1 - q) := by
  have h2 : 0 < 1 - q := by linarith
  rw [div_le_div_iff₀ (by linarith) h2]
  nlinarith

theorem log_odds_abs_le {p : ℝ} (hp : 0.00003 ≤ p) (hp1 : p ≤ 0.99997) :
    |Real.log (p / (1 - p))| ≤ 127 / 12 := by
  have h0 : 0 < p := lt_of_lt_of_le (by norm_num) hp
  have h1 : p < 1 := lt_of_le_of_lt hp1 (by norm_num)
  have hrpos : 0 < p / (1 - p) := div_pos h0 (by linarith)
  have hlo : (3 : ℝ) / 99997 ≤ p / (1 - p) := by
    have := odds_mono (p := 0.00003) (by norm_num) h1 hp
    calc (3 : ℝ) / 99997 = (0.00003 : ℝ) / (1 - 0.00003) := by norm_num
      _ ≤ p / (1 - p) := this
  have hhi : p / (1 - p) ≤ (99997 : ℝ) / 3 := by
    have := odds_mono (q := 0.99997) h0 (by norm_num) hp1
    calc p / (1 - p) ≤ (0.99997 : ℝ) / (1 - 0.99997) := this
      _ = (99997 : ℝ) / 3 := by norm_num
  rw [abs_le]
  constructor
  · refine (Real.le_log_iff_exp_le hrpos).mpr ?_
    refine le_trans ?_ hlo
    rw [Real.exp_neg, show (3 : ℝ) / 99997 = ((99997 : ℝ) / 3)⁻¹ by norm_num]
    exact inv_anti₀ (by norm_num) exp_127_12_ge
  · rw [Real.log_le_iff_le_exp hrpos]
    exact le_trans hhi exp_127_12_ge

theorem ef8_eq_trunc {p : ℝ} (hp : 0.00003 ≤ p) (hp1 : p ≤ 0.99997) :
    ef8 p = trunc (12 * Real.log (p / (1 - p))) := by
  have h0 : 0 < p := lt_of_lt_of_le (by norm_num) hp
  have h1 : p < 1 := lt_of_le_of_lt hp1 (by norm_num)
  have habs := log_odds_abs_le hp hp1
  rw [abs_le] at habs
  have hmem : -(127 : ℤ) ≤ trunc (12 * Real.log (p / (1 - p))) ∧
      trunc (12 * Real.log (p / (1 - p))) ≤ 127 := by
    refine trunc_mem_Icc (by norm_num) ?_ ?_
    · push_cast
      linarith [habs.1]
    · push_cast
      linarith [habs.2]
  simp only [ef8]
  rw [enc_arg_eq]
  rw [if_neg (not_lt.mpr hmem.1), if_neg (not_lt.mpr hmem.2)]

theorem ef16_eq_trunc {p : ℝ} (hp : 0.00003 ≤ p) (hp1 : p ≤ 0.99997) :
    ef16 p = trunc (1024 * Real.log (p / (1 - p))) := by
  have h0 : 0 < p := lt_of_lt_of_le (by norm_num) hp
  have h1 : p < 1 := lt_of_le_of_lt hp1 (by norm_num)
  have habs := log_odds_abs_le hp hp1
  rw [abs_le] at habs
  have hmem : -(32767 : ℤ) ≤ trunc (1024 * Real.log (p / (1 - p))) ∧
      trunc (1024 * Real.log (p / (1 - p))) ≤ 32767 := by
    refine trunc_mem_Icc (by norm_num) ?_ ?_
    · push_cast
      linarith [habs.1]
    · push_cast
      linarith [habs.2]
  simp only [ef16]
  rw [enc_arg_eq]
  rw [if_neg (not_lt.mpr hmem.1), if_neg (not_lt.mpr hmem.2)]

/-! ### Numeric bounds for the round-trip error -/

theorem err_bound_8 :
    (Real.exp ((1 / 12 : ℝ) / 2) - Real.exp (-((1 / 12 : ℝ) / 2))) / 4 ≤ 0.021 := by
  have he : ((1 / 12 : ℝ) / 2) = 1 / 24 := by norm_num
  rw [he]
  have h1 : Real.exp (1 / 24 : ℝ) ≤ 64855 / 62208 := exp_twentyfourth_le
  have h2 : (62208 : ℝ) / 64855 ≤ Real.exp (-(1 / 24 : ℝ)) := by
    rw [Real.exp_neg, show (62208 : ℝ) / 64855 = ((64855 : ℝ) / 62208)⁻¹ by norm_num]
    exact inv_anti₀ (Real.exp_pos _) h1
  have h3 : ((64855 : ℝ) / 62208 - 62208 / 64855) / 4 ≤ 0.021 := by norm_num
  linarith

theorem err_bound_16 :
    (Real.exp ((1 / 1024 : ℝ) / 2) - Real.exp (-((1 / 1024 : ℝ) / 2))) / 4 ≤
      0.000245 := by
  have he : ((1 / 1024 : ℝ) / 2) = 1 / 2048 := by norm_num
  rw [he]
  have h1 : Real.exp (1 / 2048 : ℝ) ≤ 16785411 / 16777216 := exp_2048th_le
  have h2 : (16777216 : ℝ) / 16785411 ≤ Real.exp (-(1 / 2048 : ℝ)) := by
    rw [Real.exp_neg,
      show (16777216 : ℝ) / 16785411 = ((16785411 : ℝ) / 16777216)⁻¹ by norm_num]
    exact inv_anti₀ (Real.exp_pos _) h1
  have h3 : ((16785411 : ℝ) / 16777216 - 16777216 / 16785411) / 4 ≤ 0.000245 := by
    norm_num
  linarith

/-! ### Claim C1 -/

/-- C1 (amended): for every probability p in [0.00003, 0.99997],
|DF8(ef8(p)) - p| ≤ 0.021 for the 8-bit codec, and
|DF16(ef16(p)) - p| ≤ 0.000245 for the 16-bit codec (encoding truncates
the log-odds value to an integer; decoding applies the logistic function).
The bounds 0.02 and 0.00024 of the original claim are slightly exceeded
near the discontinuities of the truncation: the true suprema are
(e^(1/24) - e^(-1/24))/4 ≈ 0.0208 and (e^(1/2048) - e^(-1/2048))/4 ≈
0.000244. -/
theorem C1_round_trip_amended (p : ℝ) (hp : 0.00003 ≤ p) (hp1 : p ≤ 0.99997) :
    |DF8 (ef8 p) - p| ≤ 0.021 ∧ |DF16 (ef16 p) - p| ≤ 0.000245 := by
  have h0 : 0 < p := lt_of_lt_of_le (by norm_num) hp
  have h1 : p < 1 := lt_of_le_of_lt hp1 (by norm_num)
  have hpeq : lgstc (Real.log (p / (1 - p))) = p := lgstc_log_odds h0 h1
  constructor
  · have he := ef8_eq_trunc hp hp1
    have htr := trunc_sub_abs_le (12 * Real.log (p / (1 - p)))
    have hdiff : |(trunc (12 * Real.log (p / (1 - p))) : ℝ) / 12 -
        Real.log (p / (1 - p))| ≤ 1 / 12 := by
      have heq : (trunc (12 * Real.log (p / (1 - p))) : ℝ) / 12 -
          Real.log (p / (1 - p)) =
          ((trunc (12 * Real.log (p / (1 - p))) : ℝ) -
            12 * Real.log (p / (1 - p))) / 12 := by
        ring
      rw [heq, abs_div]
      rw [show |(12 : ℝ)| = 12 by norm_num]
      linarith [htr]
    calc |DF8 (ef8 p) - p|
        = |lgstc ((trunc (12 * Real.log (p / (1 - p))) : ℝ) / 12) -
            lgstc (Real.log (p / (1 - p)))| := by
          rw [he, DF8_lgstc]
          rw [hpeq]
      _ ≤ (Real.exp ((1 / 12 : ℝ) / 2) - Real.exp (-((1 / 12 : ℝ) / 2))) / 4 :=
          lgstc_gap_abs hdiff
      _ ≤ 0.021 := err_bound_8
  · have he := ef16_eq_trunc hp hp1
    have htr := trunc_sub_abs_le (1024 * Real.log (p / (1 - p)))
    have hdiff : |(trunc (1024 * Real.log (p / (1 - p))) : ℝ) / 1024 -
        Real.log (p / (1 - p))| ≤ 1 / 1024 := by
      have heq : (trunc (1024 * Real.log (p / (1 - p))) : ℝ) / 1024 -
          Real.log (p / (1 - p)) =
          ((trunc (1024 * Real.log (p / (1 - p))) : ℝ) -
            1024 * Real.log (p / (1 - p))) / 1024 := by
        ring
      rw [heq, abs_div]
      rw [show |(1024 : ℝ)| = 1024 by norm_num]
      linarith [htr]
    calc |DF16 (ef16 p) - p|
        = |lgstc ((trunc (1024 * Real.log (p / (1 - p))) : ℝ) / 1024) -
            lgstc (Real.log (p / (1 - p)))| := by
          rw [he, DF16_lgstc]
          rw [hpeq]
      _ ≤ (Real.exp ((1 / 1024 : ℝ) / 2) -
            Real.exp (-((1 / 1024 : ℝ) / 2))) / 4 :=
          lgstc_gap_abs hdiff
      _ ≤ 0.000245 := err_bound_16

/-- C1 (counterexample): the claimed bounds 0.02 and 0.00024 fail.  At
p = 0.5204 the 8-bit round trip error is 0.0204 > 0.02 (the code
truncates the log-odds value 12·log(1301/1199) ≈ 0.985 to 0, decoding to
exactly 1/2), and at p = 0.500243 the 16-bit error is 0.000243 > 0.00024
for the same reason. -/
theorem C1_counterexample :
    ¬ |DF8 (ef8 0.5204) - 0.5204| ≤ 0.02 ∧
      ¬ |DF16 (ef16 0.500243) - 0.500243| ≤ 0.00024 := by
  constructor
  · have harg : -12 * Real.log ((1 - (0.5204 : ℝ)) / 0.5204) =
        12 * Real.log ((1301 : ℝ) / 1199) := by
      rw [enc_arg_eq]
      norm_num
    have hA0 : 0 ≤ 12 * Real.log ((1301 : ℝ) / 1199) := by
      have := Real.log_nonneg (by norm_num : (1 : ℝ) ≤ 1301 / 1199)
      linarith
    have hA1 : 12 * Real.log ((1301 : ℝ) / 1199) < 1 := by
      have hpow : ((1301 : ℝ) / 1199) ^ (12 : ℕ) < Real.exp 1 :=
        lt_trans (by norm_num) Real.exp_one_gt_d9
      have hlog := (Real.log_lt_iff_lt_exp (by positivity)).mpr hpow
      rw [Real.log_pow] at hlog
      push_cast at hlog
      linarith
    have hef : ef8 0.5204 = 0 := by
      simp only [ef8]
      rw [harg, trunc_eq_zero hA0 hA1]
      norm_num
    have hdf : DF8 0 = 1 / 2 := by
      unfold DF8
      norm_num
    rw [hef, hdf]
    rw [abs_of_nonpos (by norm_num)]
    norm_num
  · have harg : -1024 * Real.log ((1 - (0.500243 : ℝ)) / 0.500243) =
        1024 * Real.log ((500243 : ℝ) / 499757) := by
      rw [enc_arg_eq]
      norm_num
    have hA0 : 0 ≤ 1024 * Real.log ((500243 : ℝ) / 499757) := by
      have := Real.log_nonneg (by norm_num : (1 : ℝ) ≤ 500243 / 499757)
      linarith
    have hA1 : 1024 * Real.log ((500243 : ℝ) / 499757) < 1 := by
      have hpow : ((500243 : ℝ) / 499757) ^ (1024 : ℕ) < Real.exp 1 :=
        lt_trans (by norm_num) Real.exp_one_gt_d9
      have hlog := (Real.log_lt_iff_lt_exp (by positivity)).mpr hpow
      rw [Real.log_pow] at hlog
      push_cast at hlog
      linarith
    have hef : ef16 0.500243 = 0 := by
      simp only [ef16]
      rw [harg, trunc_eq_zero hA0 hA1]
      norm_num
    have hdf : DF16 0 = 1 / 2 := by
      unfold DF16
      norm_num
    rw [hef, hdf]
    rw [abs_of_nonpos (by norm_num)]
    norm_num

/-- C1 (witness): the amended round-trip bound instantiated at p = 1/2. -/
theorem C1_round_trip_amended_witness :
    (0.00003 : ℝ) ≤ 1 / 2 ∧ (1 / 2 : ℝ) ≤ 0.99997 ∧
      |DF8 (ef8 (1 / 2)) - 1 / 2| ≤ 0.021 ∧
      |DF16 (ef16 (1 / 2)) - 1 / 2| ≤ 0.000245 :=
  ⟨by norm_num, by norm_num,
    (C1_round_trip_amended (1 / 2) (by norm_num) (by norm_num)).1,
    (C1_round_trip_amended (1 / 2) (by norm_num) (by norm_num)).2⟩

/-! ### Claim C3 -/

theorem clamp2_mono {lo hi a b : ℤ} (hlohi : lo ≤ hi) (h : a ≤ b) :
    (if (if a < lo then lo else a) > hi then hi else if a < lo then lo else a) ≤
      (if (if b < lo then lo else b) > hi then hi else if b < lo then lo else b) := by
  split_ifs <;> omega

theorem clamp2_neg {c a : ℤ} (hc : 0 ≤ c) :
    (if (if -a < -c then -c else -a) > c then c else if -a < -c then -c else -a) =
      -(if (if a < -c then -c else a) > c then c else if a < -c then -c else a) := by
  split_ifs <;> omega

theorem ef8_neg_arg (p : ℝ) :
    -12 * Real.log ((1 - (1 - p)) / (1 - p)) =
      -(-12 * Real.log ((1 - p) / p)) := by
  rw [show (1 : ℝ) - (1 - p) = p by ring, enc_arg_eq]
  ring

theorem ef16_neg_arg (p : ℝ) :
    -1024 * Real.log ((1 - (1 - p)) / (1 - p)) =
      -(-1024 * Real.log ((1 - p) / p)) := by
  rw [show (1 : ℝ) - (1 - p) = p by ring, enc_arg_eq]
  ring

/-- C3: monotonicity and symmetry of both codecs: for p ≤ q in (0,1),
ef8(p) ≤ ef8(q) and ef16(p) ≤ ef16(q); for p in (0,1),
ef8(1-p) = -ef8(p) and ef16(1-p) = -ef16(p); and for every integer code
x, DF8(-x) = 1 - DF8(x) and DF16(-x) = 1 - DF16(x) (symmetry around
p = 0.5). -/
theorem C3_monotone_symmetric :
    (∀ p q : ℝ, 0 < p → p ≤ q → q < 1 → ef8 p ≤ ef8 q ∧ ef16 p ≤ ef16 q) ∧
      (∀ p : ℝ, 0 < p → p < 1 →
        ef8 (1 - p) = -ef8 p ∧ ef16 (1 - p) = -ef16 p) ∧
      (∀ x : ℤ, DF8 (-x) = 1 - DF8 x ∧ DF16 (-x) = 1 - DF16 x) := by
  refine ⟨?_, ?_, ?_⟩
  · intro p q h0 hpq hq1
    have h0q : 0 < q := lt_of_lt_of_le h0 hpq
    have hp1 : p < 1 := lt_of_le_of_lt hpq hq1
    have hodds : (1 - q) / q ≤ (1 - p) / p := by
      have h := odds_mono (p := 1 - q) (q := 1 - p)
        (by linarith) (by linarith) (by linarith)
      rwa [show (1 : ℝ) - (1 - q) = q by ring,
        show (1 : ℝ) - (1 - p) = p by ring] at h
    have hlog : Real.log ((1 - q) / q) ≤ Real.log ((1 - p) / p) :=
      (Real.log_le_log_iff (div_pos (by linarith) h0q)
        (div_pos (by linarith) h0)).mpr hodds
    constructor
    · have htr : trunc (-12 * Real.log ((1 - p) / p)) ≤
          trunc (-12 * Real.log ((1 - q) / q)) := trunc_mono (by linarith)
      simp only [ef8]
      exact clamp2_mono (by norm_num) htr
    · have htr : trunc (-1024 * Real.log ((1 - p) / p)) ≤
          trunc (-1024 * Real.log ((1 - q) / q)) := trunc_mono (by linarith)
      simp only [ef16]
      exact clamp2_mono (by norm_num) htr
  · intro p _ _
    constructor
    · simp only [ef8]
      rw [ef8_neg_arg, trunc_neg]
      exact clamp2_neg (by norm_num)
    · simp only [ef16]
      rw [ef16_neg_arg, trunc_neg]
      exact clamp2_neg (by norm_num)
  · intro x
    constructor
    · unfold DF8
      have h : ((-x : ℤ) : ℝ) / (-12) = -((x : ℝ) / (-12)) := by
        push_cast
        ring
      rw [h, Real.exp_neg]
      have hne : Real.exp ((x : ℝ) / (-12)) ≠ 0 := (Real.exp_pos _).ne'
      field_simp
      ring
    · unfold DF16
      have h : ((-x : ℤ) : ℝ) / (-1024) = -((x : ℝ) / (-1024)) := by
        push_cast
        ring
      rw [h, Real.exp_neg]
      have hne : Real.exp ((x : ℝ) / (-1024)) ≠ 0 := (Real.exp_pos _).ne'
      field_simp
      ring

/-- C3 (witness): monotonicity at p = 1/4 ≤ q = 1/2 and symmetry at
p = 1/3 and code x = 5. -/
theorem C3_monotone_symmetric_witness :
    (0 : ℝ) < 1 / 4 ∧ (1 / 4 : ℝ) ≤ 1 / 2 ∧ (1 / 2 : ℝ) < 1 ∧
      ef8 (1 / 4) ≤ ef8 (1 / 2) ∧ ef16 (1 / 4) ≤ ef16 (1 / 2) ∧
      ef8 (1 - 1 / 3) = -ef8 (1 / 3) ∧ DF8 (-5) = 1 - DF8 5 :=
  ⟨by norm_num, by norm_num, by norm_num,
    (C3_monotone_symmetric.1 (1 / 4) (1 / 2) (by norm_num) (by norm_num)
      (by norm_num)).1,
    (C3_monotone_symmetric.1 (1 / 4) (1 / 2) (by norm_num) (by norm_num)
      (by norm_num)).2,
    (C3_monotone_symmetric.2.1 (1 / 3) (by norm_num) (by norm_num)).1,
    (C3_monotone_symmetric.2.2 5).1⟩

/-! ### Claim C4 -/

theorem DF8_mono {c d : ℤ} (h : c ≤ d) : DF8 c ≤ DF8 d := by
  rw [DF8_lgstc, DF8_lgstc]
  apply lgstc_mono
  have hcd : (c : ℝ) ≤ d := by exact_mod_cast h
  linarith

theorem DF16_mono {c d : ℤ} (h : c ≤ d) : DF16 c ≤ DF16 d := by
  rw [DF16_lgstc, DF16_lgstc]
  apply lgstc_mono
  have hcd : (c : ℝ) ≤ d := by exact_mod_cast h
  linarith

theorem DF8_neg127_eq : DF8 (-127) = 1 / (1 + Real.exp (127 / 12)) := by
  unfold DF8
  rw [show (((-127 : ℤ) : ℝ)) / (-12) = 127 / 12 by push_cast; norm_num]

theorem DF8_pos127_eq : DF8 127 = 1 / (1 + Real.exp (-(127 / 12))) := by
  unfold DF8
  rw [show (((127 : ℤ) : ℝ)) / (-12) = -(127 / 12) by push_cast; norm_num]

theorem DF16_neg32767_eq :
    DF16 (-32767) = 1 / (1 + Real.exp (32767 / 1024)) := by
  unfold DF16
  rw [show (((-32767 : ℤ) : ℝ)) / (-1024) = 32767 / 1024 by push_cast; norm_num]

theorem DF8_neg127_ge : (0.000025334 : ℝ) ≤ DF8 (-127) := by
  rw [DF8_neg127_eq]
  have hE := exp_127_12_le
  have hpos : (0 : ℝ) < 1 + Real.exp (127 / 12) := by positivity
  rw [le_div_iff₀ hpos]
  linarith

theorem DF8_pos127_le : DF8 127 ≤ 0.9999747 := by
  rw [DF8_pos127_eq]
  have hinv : (25334 : ℝ) / 999974666 ≤ Real.exp (-(127 / 12)) := by
    rw [Real.exp_neg,
      show (25334 : ℝ) / 999974666 = ((999974666 : ℝ) / 25334)⁻¹ by norm_num]
    exact inv_anti₀ (Real.exp_pos _) exp_127_12_le
  have hpos : (0 : ℝ) < 1 + Real.exp (-(127 / 12)) := by positivity
  rw [div_le_iff₀ hpos]
  linarith

theorem DF16_min_bounds :
    (1.2e-14 : ℝ) ≤ DF16 (-32767) ∧ DF16 (-32767) ≤ 1.3e-14 := by
  rw [DF16_neg32767_eq]
  have hupper := exp_32767_1024_le
  have hlower := exp_32767_1024_ge
  have hpos : (0 : ℝ) < 1 + Real.exp (32767 / 1024) := by positivity
  constructor
  · rw [le_div_iff₀ hpos]
    linarith
  · rw [div_le_iff₀ hpos]
    linarith

/-- C4: representable range of the decoders: for every 8-bit code c in
[-127, 127], DF8(c) lies in [0.000025334, 0.9999747], with the minimum
attained at c = -127 and the maximum at c = 127; for every 16-bit code c
in [-32767, 32767], DF16(c) lies strictly within (0, 1), with minimum
approximately 1.26765e-14 (formalized as the interval
[1.2e-14, 1.3e-14]) at c = -32767. -/
theorem C4_decoder_range :
    (∀ c : ℤ, -127 ≤ c → c ≤ 127 →
      (0.000025334 : ℝ) ≤ DF8 c ∧ DF8 c ≤ 0.9999747 ∧
        DF8 (-127) ≤ DF8 c ∧ DF8 c ≤ DF8 127) ∧
      (∀ c : ℤ, -32767 ≤ c → c ≤ 32767 →
        0 < DF16 c ∧ DF16 c < 1 ∧ DF16 (-32767) ≤ DF16 c) ∧
      ((1.2e-14 : ℝ) ≤ DF16 (-32767) ∧ DF16 (-32767) ≤ 1.3e-14) := by
  refine ⟨?_, ?_, DF16_min_bounds⟩
  · intro c h1 h2
    have hm1 : DF8 (-127) ≤ DF8 c := DF8_mono h1
    have hm2 : DF8 c ≤ DF8 127 := DF8_mono h2
    exact ⟨le_trans DF8_neg127_ge hm1, le_trans hm2 DF8_pos127_le, hm1, hm2⟩
  · intro c h1 _
    refine ⟨?_, ?_, DF16_mono h1⟩
    · unfold DF16
      positivity
    · rw [DF16_lgstc]
      exact lgstc_lt_one _

/-- C4 (witness): the range bounds instantiated at the code c = 0 for
both decoders. -/
theorem C4_decoder_range_witness :
    (-127 : ℤ) ≤ 0 ∧ (0 : ℤ) ≤ 127 ∧ (-32767 : ℤ) ≤ 0 ∧ (0 : ℤ) ≤ 32767 ∧
      (0.000025334 : ℝ) ≤ DF8 0 ∧ DF8 0 ≤ 0.9999747 ∧
      0 < DF16 0 ∧ DF16 (-32767) ≤ DF16 0 :=
  ⟨by norm_num, by norm_num, by norm_num, by norm_num,
    (C4_decoder_range.1 0 (by norm_num) (by norm_num)).1,
    (C4_decoder_range.1 0 (by norm_num) (by norm_num)).2.1,
    (C4_decoder_range.2.1 0 (by norm_num) (by norm_num)).1,
    (C4_decoder_range.2.1 0 (by norm_num) (by norm_num)).2.2⟩

/-! ### Membership and emptiness of the diagnostic list -/

theorem mem_ite_singleton {α : Type*} (d x : α) (c : Prop) [Decidable c] :
    (d ∈ if c then [x] else []) ↔ c ∧ d = x := by
  split_ifs with h <;> simp [h]

theorem ite_singleton_eq_nil {α : Type*} (x : α) (c : Prop) [Decidable c] :
    (if c then [x] else []) = ([] : List α) ↔ ¬c := by
  split_ifs with h <;> simp [h]

theorem verify_diags_empty_iff (N : ℤ) (o : rfmix_opts_t) :
    verify_diags N o = [] ↔ ¬ config_error N o := by
  unfold verify_diags config_error
  simp only [List.append_eq_nil, ite_singleton_eq_nil]
  tauto

theorem verify_exited_iff (N now : ℤ) (o : rfmix_opts_t) :
    (verify_options N now o).exited = true ↔ config_error N o := by
  have he : (verify_options N now o).exited = !(verify_diags N o).isEmpty := rfl
  rw [he, Bool.not_eq_true', List.isEmpty_eq_false, ne_eq,
    verify_diags_empty_iff, not_not]

theorem mem_verify_qvcf (N : ℤ) (o : rfmix_opts_t) :
    diag.qvcf ∈ verify_diags N o ↔ o.qvcf_fname = "" := by
  unfold verify_diags
  simp [List.mem_append, mem_ite_singleton]

theorem mem_verify_rvcf (N : ℤ) (o : rfmix_opts_t) :
    diag.rvcf ∈ verify_diags N o ↔ o.rvcf_fname = "" := by
  unfold verify_diags
  simp [List.mem_append, mem_ite_singleton]

theorem mem_verify_genetic (N : ℤ) (o : rfmix_opts_t) :
    diag.genetic ∈ verify_diags N o ↔ o.genetic_fname = "" := by
  unfold verify_diags
  simp [List.mem_append, mem_ite_singleton]

theorem mem_verify_class_map (N : ℤ) (o : rfmix_opts_t) :
    diag.class_map ∈ verify_diags N o ↔ o.class_fname = "" := by
  unfold verify_diags
  simp [List.mem_append, mem_ite_singleton]

theorem mem_verify_output (N : ℤ) (o : rfmix_opts_t) :
    diag.output ∈ verify_diags N o ↔ o.output_basename = "" := by
  unfold verify_diags
  simp [List.mem_append, mem_ite_singleton]

theorem mem_verify_max_missing (N : ℤ) (o : rfmix_opts_t) :
    diag.max_missing ∈ verify_diags N o ↔
      o.maximum_missing_data_freq < 0 ∨ 1 < o.maximum_missing_data_freq := by
  unfold verify_diags
  simp [List.mem_append, mem_ite_singleton]

theorem mem_verify_rf_window (N : ℤ) (o : rfmix_opts_t) :
    diag.rf_window ∈ verify_diags N o ↔ o.rf_window_size ≤ 0 := by
  unfold verify_diags
  simp [List.mem_append, mem_ite_singleton]

theorem mem_verify_crf_spacing (N : ℤ) (o : rfmix_opts_t) :
    diag.crf_spacing ∈ verify_diags N o ↔ o.crf_spacing ≤ 0 := by
  unfold verify_diags
  simp [List.mem_append, mem_ite_singleton]

theorem mem_verify_n_generations (N : ℤ) (o : rfmix_opts_t) :
    diag.n_generations ∈ verify_diags N o ↔ o.n_generations < 0 := by
  unfold verify_diags
  simp [List.mem_append, mem_ite_singleton]

theorem mem_verify_n_trees (N : ℤ) (o : rfmix_opts_t) :
    diag.n_trees ∈ verify_diags N o ↔ o.n_trees < 10 := by
  unfold verify_diags
  simp [List.mem_append, mem_ite_singleton]

theorem mem_verify_bootstrap (N : ℤ) (o : rfmix_opts_t) :
    diag.bootstrap ∈ verify_diags N o ↔
      o.bootstrap_mode < 0 ∨ N ≤ o.bootstrap_mode := by
  unfold verify_diags
  simp [List.mem_append, mem_ite_singleton]

theorem mem_verify_analyze_fmt (N : ℤ) (o : rfmix_opts_t) :
    diag.analyze_fmt ∈ verify_diags N o ↔
      o.analyze_str ≠ "" ∧ '-' ∉ o.analyze_str.toList := by
  unfold verify_diags
  simp [List.mem_append, mem_ite_singleton]

theorem mem_verify_chromosome (N : ℤ) (o : rfmix_opts_t) :
    diag.chromosome ∈ verify_diags N o ↔ o.chromosome = "" := by
  unfold verify_diags
  simp [List.mem_append, mem_ite_singleton]

theorem not_config_error_of_not_exited {N now : ℤ} {o : rfmix_opts_t}
    (he : (verify_options N now o).exited = false) : ¬ config_error N o := by
  intro hc
  have h := (verify_exited_iff N now o).mpr hc
  rw [he] at h
  exact Bool.false_ne_true h

/-! ### Claim C5 -/

/-- C5: configuration errors are fatal and precede all computation: if any
required input file name (query VCF, reference VCF, genetic map, sample
map, output basename, chromosome) is empty, or any parameter is out of
range (maximum_missing_data_freq outside [0,1], rf_window_size ≤ 0,
crf_spacing ≤ 0, n_generations < 0, n_trees < 10, bootstrap_mode out of
range, malformed analyze range), then main exits with status -1 inside
verify_options, before load_input or any inference step runs
(`main_outcome.exited (-1)` versus `main_outcome.ran_pipeline`); and every
violated check is diagnosed, not only the first (one iff per check). -/
theorem C5_config_errors_fatal (N now : ℤ) (o : rfmix_opts_t) :
    (config_error N o → main_model N now o = main_outcome.exited (-1)) ∧
      (¬ config_error N o → main_model N now o = main_outcome.ran_pipeline) ∧
      (o.qvcf_fname = "" ↔ diag.qvcf ∈ (verify_options N now o).diags) ∧
      (o.rvcf_fname = "" ↔ diag.rvcf ∈ (verify_options N now o).diags) ∧
      (o.genetic_fname = "" ↔ diag.genetic ∈ (verify_options N now o).diags) ∧
      (o.class_fname = "" ↔ diag.class_map ∈ (verify_options N now o).diags) ∧
      (o.output_basename = "" ↔ diag.output ∈ (verify_options N now o).diags) ∧
      ((o.maximum_missing_data_freq < 0 ∨ 1 < o.maximum_missing_data_freq) ↔
        diag.max_missing ∈ (verify_options N now o).diags) ∧
      (o.rf_window_size ≤ 0 ↔ diag.rf_window ∈ (verify_options N now o).diags) ∧
      (o.crf_spacing ≤ 0 ↔ diag.crf_spacing ∈ (verify_options N now o).diags) ∧
      (o.n_generations < 0 ↔
        diag.n_generations ∈ (verify_options N now o).diags) ∧
      (o.n_trees < 10 ↔ diag.n_trees ∈ (verify_options N now o).diags) ∧
      ((o.bootstrap_mode < 0 ∨ N ≤ o.bootstrap_mode) ↔
        diag.bootstrap ∈ (verify_options N now o).diags) ∧
      ((o.analyze_str ≠ "" ∧ '-' ∉ o.analyze_str.toList) ↔
        diag.analyze_fmt ∈ (verify_options N now o).diags) ∧
      (o.chromosome = "" ↔ diag.chromosome ∈ (verify_options N now o).diags) := by
  refine ⟨?_, ?_,
    (mem_verify_qvcf N o).symm, (mem_verify_rvcf N o).symm,
    (mem_verify_genetic N o).symm, (mem_verify_class_map N o).symm,
    (mem_verify_output N o).symm, (mem_verify_max_missing N o).symm,
    (mem_verify_rf_window N o).symm, (mem_verify_crf_spacing N o).symm,
    (mem_verify_n_generations N o).symm, (mem_verify_n_trees N o).symm,
    (mem_verify_bootstrap N o).symm, (mem_verify_analyze_fmt N o).symm,
    (mem_verify_chromosome N o).symm⟩
  · intro hc
    unfold main_model
    rw [if_pos ((verify_exited_iff N now o).mpr hc)]
  · intro hc
    unfold main_model
    rw [if_neg (fun h => hc ((verify_exited_iff N now o).mp h))]

/-- C5 (witness): the all-empty `init_options` state is a configuration
error and aborts before the pipeline; the valid example configuration is
not and proceeds to `load_input`. -/
theorem C5_config_errors_fatal_witness :
    config_error N_RF_BOOTSTRAP_model (init_options 4) ∧
      main_model N_RF_BOOTSTRAP_model 0 (init_options 4) =
        main_outcome.exited (-1) ∧
      ¬ config_error N_RF_BOOTSTRAP_model opts_valid_example ∧
      main_model N_RF_BOOTSTRAP_model 0 opts_valid_example =
        main_outcome.ran_pipeline :=
  ⟨by decide,
    (C5_config_errors_fatal N_RF_BOOTSTRAP_model 0 (init_options 4)).1
      (by decide),
    by decide,
    (C5_config_errors_fatal N_RF_BOOTSTRAP_model 0 opts_valid_example).2.1
      (by decide)⟩

/-! ### Claim C6 -/

/-- C6: the bootstrap mode is a closed enumeration validated at startup:
verify_options diagnoses bootstrap_mode exactly when it is < 0 or
≥ N_RF_BOOTSTRAP (the parameter N), so every run that proceeds past
validation has bootstrap_mode in the closed integer range
[0, N_RF_BOOTSTRAP - 1]. -/
theorem C6_bootstrap_enum (N now : ℤ) (o : rfmix_opts_t) :
    (diag.bootstrap ∈ (verify_options N now o).diags ↔
      o.bootstrap_mode < 0 ∨ N ≤ o.bootstrap_mode) ∧
      ((verify_options N now o).exited = false →
        0 ≤ o.bootstrap_mode ∧ o.bootstrap_mode ≤ N - 1) := by
  constructor
  · exact mem_verify_bootstrap N o
  · intro he
    have hnc := not_config_error_of_not_exited he
    unfold config_error at hnc
    push_neg at hnc
    obtain ⟨-, -, -, -, -, -, -, -, -, -, -, h12, h13, -, -⟩ := hnc
    omega

/-- C6 (witness): the valid example configuration passes validation, so
its bootstrap mode lies in [0, N_RF_BOOTSTRAP - 1]. -/
theorem C6_bootstrap_enum_witness :
    (verify_options N_RF_BOOTSTRAP_model 0 opts_valid_example).exited = false ∧
      0 ≤ opts_valid_example.bootstrap_mode ∧
      opts_valid_example.bootstrap_mode ≤ N_RF_BOOTSTRAP_model - 1 :=
  ⟨by decide,
    (C6_bootstrap_enum N_RF_BOOTSTRAP_model 0 opts_valid_example).2 (by decide)⟩

/-! ### Claim C7 -/

/-- C7: seed derivation: verify_options sets random_seed from the wall
clock (`now`, the value of time(NULL)) if and only if random_seed_str is
exactly the string "clock"; for every other string the seed is a
deterministic function of the string alone — `strtod` parsed numerically,
accepting a 0x-prefixed hexadecimal form, then converted to int — so two
runs given the same non-"clock" seed string obtain the same random_seed
regardless of the clock. -/
theorem C7_seed_derivation (N now now' : ℤ) (o : rfmix_opts_t) :
    ((verify_options N now o).opts.random_seed =
      if o.random_seed_str = "clock" then now
      else qtrunc (strtodQ o.random_seed_str)) ∧
      (o.random_seed_str ≠ "clock" →
        (verify_options N now o).opts.random_seed =
          (verify_options N now' o).opts.random_seed) ∧
      qtrunc (strtodQ "0x1A") = 26 ∧ qtrunc (strtodQ "123") = 123 := by
  have hseed : ∀ t : ℤ, (verify_options N t o).opts.random_seed =
      if o.random_seed_str = "clock" then t
      else qtrunc (strtodQ o.random_seed_str) := fun t => rfl
  refine ⟨hseed now, ?_, by decide, by decide⟩
  intro h
  rw [hseed now, hseed now', if_neg h, if_neg h]

/-- C7 (witness): with the non-"clock" seed string "0xDEADBEEF", two runs
with different clock values obtain the same seed. -/
theorem C7_seed_derivation_witness :
    opts_valid_example.random_seed_str ≠ "clock" ∧
      (verify_options N_RF_BOOTSTRAP_model 5 opts_valid_example).opts.random_seed =
        (verify_options N_RF_BOOTSTRAP_model 77 opts_valid_example).opts.random_seed :=
  ⟨by decide,
    (C7_seed_derivation N_RF_BOOTSTRAP_model 5 77 opts_valid_example).2.1
      (by decide)⟩

/-! ### Claim C8 -/

/-- C8: a thread-count configuration value below 1 is never a fatal
configuration error: verify_options silently replaces any n_threads < 1
with 1 (without printing a diagnostic or setting the stop flag: the
diagnostic list and the exit decision do not depend on n_threads at all),
and leaves any n_threads ≥ 1 unchanged. -/
theorem C8_thread_floor_silent (N now : ℤ) (o : rfmix_opts_t) :
    ((verify_options N now o).opts.n_threads =
      if o.n_threads < 1 then 1 else o.n_threads) ∧
      (∀ t : ℤ, (verify_options N now { o with n_threads := t }).diags =
        (verify_options N now o).diags) ∧
      (∀ t : ℤ, (verify_options N now { o with n_threads := t }).exited =
        (verify_options N now o).exited) := by
  refine ⟨?_, fun t => rfl, fun t => rfl⟩
  show (verify_opts_update now o).n_threads = _
  simp only [verify_opts_update]
  split_ifs <;> rfl

/-! ### Claim C9 -/

/-- C9: minimum forest size floor: verify_options diagnoses as a fatal
configuration error exactly the tree counts n_trees < 10 (including
positive values such as 1..9), and every run that passes validation has
n_trees ≥ 10.  (This lower bound of 10 appears nowhere in the spec.) -/
theorem C9_min_trees (N now : ℤ) (o : rfmix_opts_t) :
    (diag.n_trees ∈ (verify_options N now o).diags ↔ o.n_trees < 10) ∧
      ((verify_options N now o).exited = false → 10 ≤ o.n_trees) := by
  constructor
  · exact mem_verify_n_trees N o
  · intro he
    have hnc := not_config_error_of_not_exited he
    unfold config_error at hnc
    push_neg at hnc
    obtain ⟨-, -, -, -, -, -, -, -, -, -, h11, -, -, -, -⟩ := hnc
    omega

/-- C9 (witness): the valid example configuration passes validation and
indeed has at least 10 trees; a 9-tree configuration is diagnosed. -/
theorem C9_min_trees_witness :
    (verify_options N_RF_BOOTSTRAP_model 0 opts_valid_example).exited = false ∧
      10 ≤ opts_valid_example.n_trees ∧
      diag.n_trees ∈ (verify_options N_RF_BOOTSTRAP_model 0
        { opts_valid_example with n_trees := 9 }).diags :=
  ⟨by decide,
    (C9_min_trees N_RF_BOOTSTRAP_model 0 opts_valid_example).2 (by decide),
    (C9_min_trees N_RF_BOOTSTRAP_model 0
      { opts_valid_example with n_trees := 9 }).1.mpr (by decide)⟩

/-! ### Claim C10 -/

/-- C10: with all required file names and the chromosome supplied and
every tunable parameter left at the `init_options` value, `verify_options`
does NOT report a clean configuration: because `rf_window_size` and
`crf_spacing` are `int` fields, the fractional defaults 0.2 and 0.1
truncate to 0, both `> 0` checks fail, exactly those two diagnostics are
printed, and main exits with -1 instead of proceeding — contradicting the
claim (and the source comment "none are required - defaults are
reasonable"). -/
theorem C10_defaults_rejected :
    (init_options 4).rf_window_size = 0 ∧ (init_options 4).crf_spacing = 0 ∧
      ∀ now : ℤ,
        (verify_options N_RF_BOOTSTRAP_model now opts_defaults_with_files).diags =
          [diag.rf_window, diag.crf_spacing] ∧
        main_model N_RF_BOOTSTRAP_model now opts_defaults_with_files =
          main_outcome.exited (-1) := by
  have hdiags : verify_diags N_RF_BOOTSTRAP_model opts_defaults_with_files =
      [diag.rf_window, diag.crf_spacing] := by decide
  have hex : (!(verify_diags N_RF_BOOTSTRAP_model
      opts_defaults_with_files).isEmpty) = true := by decide
  refine ⟨by decide, by decide, fun now => ⟨hdiags, ?_⟩⟩
  have hex' : (verify_options N_RF_BOOTSTRAP_model now
      opts_defaults_with_files).exited = true := hex
  unfold main_model
  rw [if_pos hex']

end Rfmix
